import Mathlib

/-!
Verification of the IPsec overhead calculator core (`src/src/App.tsx`).

The repository's only non-trivial logic is a configuration validator
(`validateForm`) and a packet composer (`calculatePacket`) that emits an
ordered list of named byte-sized packet segments.  Both are pure functions
of a configuration record; they are embedded here as executable Lean
definitions, translated clause by clause from the TypeScript source.
The TypeScript composer mutates a `packetDetails` array and a running
`packetLength` accumulator; the embedding threads these explicitly:
the emitted list is the concatenation of the per-step segment lists, and
the accumulator is the pure function `espPacketLength` (the source never
updates `packetLength` after the GRE accounting step, so all later reads,
in particular every `getPadSize` call, see this one value).
-/

namespace IpsecOverhead

/-- Packet field descriptor, mirroring `interface PacketDetail` (text, bytes,
optional group) in the source. -/
structure PacketDetail where
  text : String
  bytes : Int
  group : Option String := none
deriving DecidableEq, Repr

/-- ESP encryption transform, mirroring `type EspEncryption`. -/
inductive EspEncryption where
  | None
  | DES3DES
  | AES
  | GCM
  | NULL
deriving DecidableEq, Repr

/-- ESP integrity transform, mirroring `type EspHmac`. -/
inductive EspHmac where
  | None
  | MD5HMAC
  | SHAHMAC
  | SHA256
  | SHA384
  | SHA512
  | GMAC
deriving DecidableEq, Repr

/-- AH integrity transform, mirroring `type AhHmac`. -/
inductive AhHmac where
  | None
  | MD5HMAC
  | SHAHMAC
deriving DecidableEq, Repr

/-- IPsec mode, mirroring `type TunnelMode`. -/
inductive TunnelMode where
  | Tunnel
  | Transport
deriving DecidableEq, Repr

/-- IP version, mirroring `type IPVersion`. -/
inductive IPVersion where
  | IPv4
  | IPv6
deriving DecidableEq, Repr

/-- The `transform` sub-object of `IFormState`. -/
structure Transform where
  ahInte : AhHmac
  espEncr : EspEncryption
  espInte : EspHmac
  tunnelMode : TunnelMode
deriving DecidableEq, Repr

/-- The `transport` sub-object of `IFormState`. -/
structure Transport where
  ipProtocol : IPVersion
  natTraver : Bool
deriving DecidableEq, Repr

/-- The `tunnelSetting` sub-object of `IFormState`. -/
structure TunnelSetting where
  gre : Bool
  greKey : Bool
deriving DecidableEq, Repr

/-- Configuration record, mirroring `interface IFormState`. -/
structure IFormState where
  packetSize : Int
  transform : Transform
  transport : Transport
  tunnelSetting : TunnelSetting
deriving DecidableEq, Repr

/-- The string rendered for an `IPVersion` value (the TypeScript values are
the strings themselves). -/
def ipProtocolName : IPVersion → String
  | IPVersion.IPv4 => "IPv4"
  | IPVersion.IPv6 => "IPv6"

/-- Size of an IPv4 Header (`IPV4_HDR_SIZE`). -/
def IPV4_HDR_SIZE : Int := 20

/-- Size of an IPv6 Header (`IPV6_HDR_SIZE`). -/
def IPV6_HDR_SIZE : Int := 40

/-- The local `ipHeaderSize` computed identically in `validateForm` and
`calculatePacket`. -/
def ipHeaderSizeOf (form : IFormState) : Int :=
  if form.transport.ipProtocol = IPVersion.IPv4 then IPV4_HDR_SIZE else IPV6_HDR_SIZE

/-- Default form values (`defaultFormValues` in the source). -/
def defaultFormValues : IFormState :=
  ⟨100,
   ⟨AhHmac.None, EspEncryption.AES, EspHmac.SHAHMAC, TunnelMode.Tunnel⟩,
   ⟨IPVersion.IPv4, false⟩,
   ⟨false, false⟩⟩

/-- Validator (`validateForm`): returns an error message, or `""` when the
configuration is valid.  Each branch is a clause-by-clause translation of the
source's chain of early returns. -/
def validateForm (form : IFormState) : String :=
  let packetSize := form.packetSize
  let ipHeaderSize := ipHeaderSizeOf form
  let minPacketSize := ipHeaderSize + 8
  let maxPacketSize : Int := 64000
  if packetSize < minPacketSize ∨ packetSize > maxPacketSize then
    "Please enter a valid packet size between " ++ toString minPacketSize ++ " and " ++ toString maxPacketSize
  else if form.transform.espEncr = EspEncryption.None ∧
      form.transform.espInte = EspHmac.None ∧
      form.transform.ahInte = AhHmac.None then
    "Packet must use an encryption/authentication algorithm."
  else if ¬(form.transform.espInte = EspHmac.None ∨
        form.transform.espInte = EspHmac.GMAC) ∧
      form.transform.espEncr = EspEncryption.None then
    "ESP integrity check can only be selected with an ESP encryption algorithm"
  else if form.transform.espEncr = EspEncryption.GCM ∧
      form.transform.espInte ≠ EspHmac.None then
    "ESP-GCM provides both data confidentiality and integrity protection. Do not select a separate authentication algorithm."
  else if form.transform.espEncr ≠ EspEncryption.None ∧
      form.transform.espInte = EspHmac.GMAC then
    "ESP-GMAC is an authentication-only algorithm and can not be selected with an encryption algorithm."
  else if form.transform.ahInte ≠ AhHmac.None ∧
      form.transform.espInte = EspHmac.GMAC then
    "AH algorithms can not be selected with ESP-GMAC."
  else
    ""

/-- The inner-data helper (`setInnerdata` in the source): GRE headers, the
original IP header when tunnelled or GRE-encapsulated, and the original
payload. -/
def setInnerdata (form : IFormState) : List PacketDetail :=
  let ipHeaderSize := ipHeaderSizeOf form
  let ipName := ipProtocolName form.transport.ipProtocol
  (if form.tunnelSetting.gre then
    (if form.transform.tunnelMode = TunnelMode.Tunnel then
      [⟨"New " ++ ipName ++ " Header for GRE", ipHeaderSize, none⟩]
    else []) ++
    (if form.tunnelSetting.greKey then
      [⟨"GRE Header + Tunnel Key", 8, none⟩]
    else
      [⟨"GRE Header", 4, none⟩])
  else []) ++
  (if form.tunnelSetting.gre ∨ form.transform.tunnelMode = TunnelMode.Tunnel then
    [⟨"Original " ++ ipName ++ " Header", ipHeaderSize, none⟩]
  else []) ++
  [⟨"Original " ++ ipName ++ " Payload", form.packetSize - ipHeaderSize, none⟩]

/-- Padding helper (`getPadSize`): `Math.ceil((packetLength + 2) / blockSize)
* blockSize - (packetLength + 2)`, with the real division and ceiling taken
in `ℚ` exactly as JavaScript computes them. -/
def getPadSize (packetLength blockSize : Int) : Int :=
  ⌈((packetLength + 2 : Int) : ℚ) / ((blockSize : Int) : ℚ)⌉ * blockSize - (packetLength + 2)

/-- The running `packetLength` accumulator of `calculatePacket`.  The source
initialises it to 0, adds the step-1 outer-header amounts, then the GRE
4-or-8-byte accounting, and never writes it again; every later
`getPadSize(packetLength, _)` call therefore reads this value. -/
def espPacketLength (form : IFormState) : Int :=
  let ipHeaderSize := ipHeaderSizeOf form
  let afterHeaders : Int :=
    if form.transform.tunnelMode = TunnelMode.Tunnel then
      form.packetSize + (if form.tunnelSetting.gre then ipHeaderSize else 0)
    else if form.tunnelSetting.gre then
      form.packetSize
    else
      form.packetSize - ipHeaderSize
  afterHeaders +
    (if form.tunnelSetting.gre then 4 + (if form.tunnelSetting.greKey then 4 else 0) else 0)

/-- Step 1 of `calculatePacket`: outer IP header selection. -/
def headerSegments (form : IFormState) : List PacketDetail :=
  let ipHeaderSize := ipHeaderSizeOf form
  let ipName := ipProtocolName form.transport.ipProtocol
  if form.transform.tunnelMode = TunnelMode.Tunnel then
    [⟨"New " ++ ipName ++ " Header for IPsec", ipHeaderSize, none⟩]
  else if form.tunnelSetting.gre then
    [⟨"New " ++ ipName ++ " Header for IPsec", ipHeaderSize, none⟩]
  else
    [⟨"Original " ++ ipName ++ " Header", ipHeaderSize, none⟩]

/-- Step 2 of `calculatePacket`: NAT traversal UDP header. -/
def natSegments (form : IFormState) : List PacketDetail :=
  if form.transport.natTraver then [⟨"UDP Header (NAT-T)", 8, none⟩] else []

/-- Step 4 of `calculatePacket`: the Authentication Header block, including
the inner data when ESP is entirely unused. -/
def ahSegments (form : IFormState) : List PacketDetail :=
  if form.transform.ahInte ≠ AhHmac.None then
    [⟨"Next Header", 1, some "AH Header"⟩,
     ⟨"Payload", 1, some "AH Header"⟩,
     ⟨"Reserved", 2, some "AH Header"⟩,
     ⟨"SPI", 4, some "AH Header"⟩,
     ⟨"Sequence", 4, some "AH Header"⟩] ++
    (if form.transform.ahInte = AhHmac.MD5HMAC then [⟨"AH Digest", 12, none⟩] else []) ++
    (if form.transform.ahInte = AhHmac.SHAHMAC then [⟨"AH Digest", 12, none⟩] else []) ++
    (if form.transform.espEncr = EspEncryption.None ∧
        form.transform.espInte = EspHmac.None then
      setInnerdata form
    else [])
  else []

/-- Step 5 of `calculatePacket`: ESP header, inner data, and ESP trailer. -/
def espSegments (form : IFormState) : List PacketDetail :=
  if form.transform.espEncr ≠ EspEncryption.None ∨
      form.transform.espInte = EspHmac.GMAC then
    let packetLength := espPacketLength form
    [⟨"SPI", 4, some "ESP Header"⟩,
     ⟨"Sequence", 4, some "ESP Header"⟩] ++
    (match form.transform.espEncr with
      | EspEncryption.DES3DES =>
          ⟨"ESP IV", 8, none⟩ :: setInnerdata form ++
            [⟨"ESP Pad", getPadSize packetLength 8, some "ESP Trailer"⟩]
      | EspEncryption.AES =>
          ⟨"ESP IV", 16, none⟩ :: setInnerdata form ++
            [⟨"ESP Pad", getPadSize packetLength 16, some "ESP Trailer"⟩]
      | EspEncryption.GCM =>
          ⟨"ESP IV", 8, none⟩ :: setInnerdata form ++
            [⟨"ESP Pad", getPadSize packetLength 4, some "ESP Trailer"⟩]
      | EspEncryption.NULL =>
          setInnerdata form ++
            [⟨"ESP Pad", getPadSize packetLength 4, some "ESP Trailer"⟩]
      | EspEncryption.None => []) ++
    (if form.transform.espInte = EspHmac.GMAC then
      ⟨"ESP IV", 8, none⟩ :: setInnerdata form ++
        [⟨"ESP Pad", getPadSize packetLength 4, some "ESP Trailer"⟩]
    else []) ++
    [⟨"Pad Length", 1, some "ESP Trailer"⟩,
     ⟨"Next Header", 1, some "ESP Trailer"⟩] ++
    (if form.transform.espEncr = EspEncryption.GCM ∨
        form.transform.espInte = EspHmac.GMAC then
      [⟨"ESP ICV", 16, some "ESP Trailer"⟩]
    else []) ++
    (match form.transform.espInte with
      | EspHmac.MD5HMAC => [⟨"ESP ICV", 12, some "ESP Trailer"⟩]
      | EspHmac.SHAHMAC => [⟨"ESP ICV", 12, some "ESP Trailer"⟩]
      | EspHmac.SHA256 => [⟨"ESP ICV", 16, some "ESP Trailer"⟩]
      | EspHmac.SHA384 => [⟨"ESP ICV", 24, some "ESP Trailer"⟩]
      | EspHmac.SHA512 => [⟨"ESP ICV", 32, some "ESP Trailer"⟩]
      | EspHmac.None => []
      | EspHmac.GMAC => [])
  else []

/-- Packet composer (`calculatePacket`): the emitted `packetDetails` array is
exactly the concatenation of the step lists, in source push order. -/
def calculatePacket (form : IFormState) : List PacketDetail :=
  headerSegments form ++ natSegments form ++ ahSegments form ++ espSegments form

/-! Spec-side definitions: the six validation rules of spec section 4.1, in
their listed order, and the first-failure dispatch they prescribe. -/

/-- Rule 1 of section 4.1: `packetSize` outside
`[headerSize(ipVersion) + 8, 64000]`. -/
def ruleSizeFails (form : IFormState) : Prop :=
  form.packetSize < ipHeaderSizeOf form + 8 ∨ form.packetSize > 64000

/-- Rule 2 of section 4.1: no protection selected at all. -/
def ruleAllNoneFails (form : IFormState) : Prop :=
  form.transform.espEncr = EspEncryption.None ∧
  form.transform.espInte = EspHmac.None ∧
  form.transform.ahInte = AhHmac.None

/-- Rule 3 of section 4.1: ESP integrity other than None or GMAC without an
ESP encryption transform. -/
def ruleEspIntegrityFails (form : IFormState) : Prop :=
  ¬(form.transform.espInte = EspHmac.None ∨
      form.transform.espInte = EspHmac.GMAC) ∧
  form.transform.espEncr = EspEncryption.None

/-- Rule 4 of section 4.1: GCM together with a separate ESP integrity. -/
def ruleGcmFails (form : IFormState) : Prop :=
  form.transform.espEncr = EspEncryption.GCM ∧
  form.transform.espInte ≠ EspHmac.None

/-- Rule 5 of section 4.1: GMAC together with an ESP cipher. -/
def ruleGmacFails (form : IFormState) : Prop :=
  form.transform.espEncr ≠ EspEncryption.None ∧
  form.transform.espInte = EspHmac.GMAC

/-- Rule 6 of section 4.1: AH together with ESP-GMAC. -/
def ruleAhGmacFails (form : IFormState) : Prop :=
  form.transform.ahInte ≠ AhHmac.None ∧
  form.transform.espInte = EspHmac.GMAC

instance (form : IFormState) : Decidable (ruleSizeFails form) := by
  unfold ruleSizeFails; infer_instance

instance (form : IFormState) : Decidable (ruleAllNoneFails form) := by
  unfold ruleAllNoneFails; infer_instance

instance (form : IFormState) : Decidable (ruleEspIntegrityFails form) := by
  unfold ruleEspIntegrityFails; infer_instance

instance (form : IFormState) : Decidable (ruleGcmFails form) := by
  unfold ruleGcmFails; infer_instance

instance (form : IFormState) : Decidable (ruleGmacFails form) := by
  unfold ruleGmacFails; infer_instance

instance (form : IFormState) : Decidable (ruleAhGmacFails form) := by
  unfold ruleAhGmacFails; infer_instance

/-- First-failure dispatch prescribed by section 4.1: the message of the
first violated rule in the listed order, `""` when none is violated. -/
def firstErrorSpec (form : IFormState) : String :=
  if ruleSizeFails form then
    "Please enter a valid packet size between " ++ toString (ipHeaderSizeOf form + 8) ++ " and " ++ toString (64000 : Int)
  else if ruleAllNoneFails form then
    "Packet must use an encryption/authentication algorithm."
  else if ruleEspIntegrityFails form then
    "ESP integrity check can only be selected with an ESP encryption algorithm"
  else if ruleGcmFails form then
    "ESP-GCM provides both data confidentiality and integrity protection. Do not select a separate authentication algorithm."
  else if ruleGmacFails form then
    "ESP-GMAC is an authentication-only algorithm and can not be selected with an encryption algorithm."
  else if ruleAhGmacFails form then
    "AH algorithms can not be selected with ESP-GMAC."
  else
    ""

/-! Helper lemmas about the validator. -/

lemma validateForm_eq_firstErrorSpec (form : IFormState) :
    validateForm form = firstErrorSpec form := by
  unfold validateForm firstErrorSpec ruleSizeFails ruleAllNoneFails
    ruleEspIntegrityFails ruleGcmFails ruleGmacFails ruleAhGmacFails
  rfl

lemma sizeMsg_ne_empty (form : IFormState) :
    ("Please enter a valid packet size between " ++ toString (ipHeaderSizeOf form + 8) ++ " and " ++ toString (64000 : Int)) ≠ "" := by
  cases hip : form.transport.ipProtocol <;>
    simp [ipHeaderSizeOf, hip, IPV4_HDR_SIZE, IPV6_HDR_SIZE] <;> decide

lemma validateForm_empty_iff (form : IFormState) :
    validateForm form = "" ↔
      ¬ruleSizeFails form ∧ ¬ruleAllNoneFails form ∧ ¬ruleEspIntegrityFails form ∧
      ¬ruleGcmFails form ∧ ¬ruleGmacFails form ∧ ¬ruleAhGmacFails form := by
  rw [validateForm_eq_firstErrorSpec]
  unfold firstErrorSpec
  split_ifs with h1 h2 h3 h4 h5 h6 <;>
    simp_all [sizeMsg_ne_empty form]

/-- C1: for the configuration with packetSize 100, ESP-AES-128/192/256,
ESP-SHA-HMAC, AH None, Tunnel mode, IPv4, no NAT-T, no GRE, the composer
returns exactly the ten claimed segments in order, with no AH segments and
with the ESP pad of 10 = pad(100, 16) bytes. -/
theorem calculatePacket_default_config :
    calculatePacket defaultFormValues =
      [⟨"New IPv4 Header for IPsec", 20, none⟩,
       ⟨"SPI", 4, some "ESP Header"⟩,
       ⟨"Sequence", 4, some "ESP Header"⟩,
       ⟨"ESP IV", 16, none⟩,
       ⟨"Original IPv4 Header", 20, none⟩,
       ⟨"Original IPv4 Payload", 80, none⟩,
       ⟨"ESP Pad", 10, some "ESP Trailer"⟩,
       ⟨"Pad Length", 1, some "ESP Trailer"⟩,
       ⟨"Next Header", 1, some "ESP Trailer"⟩,
       ⟨"ESP ICV", 12, some "ESP Trailer"⟩] := by
  have h7 : ⌈(102 / 16 : ℚ)⌉ = 7 := by
    rw [Int.ceil_eq_iff]
    norm_num
  simp [calculatePacket, headerSegments, natSegments, ahSegments, espSegments,
    setInnerdata, espPacketLength, ipHeaderSizeOf, ipProtocolName,
    defaultFormValues, getPadSize, IPV4_HDR_SIZE, h7]

/-- C3: the validator returns `""` exactly when none of the six rules of
spec section 4.1 is violated, and otherwise returns the message of the first
violated rule in the listed order (`firstErrorSpec`). -/
theorem validateForm_first_rule_spec (form : IFormState) :
    (validateForm form = "" ↔
      ¬ruleSizeFails form ∧ ¬ruleAllNoneFails form ∧ ¬ruleEspIntegrityFails form ∧
      ¬ruleGcmFails form ∧ ¬ruleGmacFails form ∧ ¬ruleAhGmacFails form) ∧
    validateForm form = firstErrorSpec form :=
  ⟨validateForm_empty_iff form, validateForm_eq_firstErrorSpec form⟩

/-- Configuration used for the concrete bounds check of C5: IPv4,
rule-satisfying transform, packetSize 27. -/
def size27Form : IFormState :=
  ⟨27,
   ⟨AhHmac.None, EspEncryption.AES, EspHmac.SHAHMAC, TunnelMode.Tunnel⟩,
   ⟨IPVersion.IPv4, false⟩,
   ⟨false, false⟩⟩

/-- Configuration used for the concrete bounds check of C5: IPv4,
rule-satisfying transform, packetSize 28. -/
def size28Form : IFormState :=
  ⟨28,
   ⟨AhHmac.None, EspEncryption.AES, EspHmac.SHAHMAC, TunnelMode.Tunnel⟩,
   ⟨IPVersion.IPv4, false⟩,
   ⟨false, false⟩⟩

/-- C5: the validator fails exactly when `packetSize` lies outside
`[headerSize(ipVersion) + 8, 64000]` or a later rule fires; with IPv4 and an
otherwise rule-satisfying transform, 27 is rejected with the packet-size
message and 28 is accepted. -/
theorem validateForm_packet_size_bounds :
    (∀ form : IFormState, validateForm form ≠ "" ↔
      ((form.packetSize < ipHeaderSizeOf form + 8 ∨ form.packetSize > 64000) ∨
        ruleAllNoneFails form ∨ ruleEspIntegrityFails form ∨ ruleGcmFails form ∨
        ruleGmacFails form ∨ ruleAhGmacFails form)) ∧
    validateForm size27Form = "Please enter a valid packet size between 28 and 64000" ∧
    validateForm size28Form = "" := by
  refine ⟨fun form => ?_, by decide, by decide⟩
  rw [ne_eq, validateForm_empty_iff]
  unfold ruleSizeFails
  tauto

/-- C9: the composer is deterministic; identical configuration values give
identical segment sequences. -/
theorem calculatePacket_deterministic (form1 form2 : IFormState)
    (h : form1 = form2) : calculatePacket form1 = calculatePacket form2 := by
  rw [h]

/-- Witness for C9 at the default configuration. -/
theorem calculatePacket_deterministic_witness :
    defaultFormValues = defaultFormValues ∧
    calculatePacket defaultFormValues = calculatePacket defaultFormValues :=
  ⟨rfl, calculatePacket_deterministic defaultFormValues defaultFormValues rfl⟩

/-! Helper lemma for C10: the padding base always coincides with the summed
byte sizes of the inner-data helper output. -/

lemma espPacketLength_eq_innerdata_sum (form : IFormState) :
    espPacketLength form = ((setInnerdata form).map fun s => s.bytes).sum := by
  rcases form with ⟨ps, ⟨ah, ee, ei, tm⟩, ⟨ip, nat⟩, ⟨gre, gk⟩⟩
  cases tm <;> cases gre <;> cases gk <;>
    simp [espPacketLength, setInnerdata, ipHeaderSizeOf] <;> ring

/-- C10: whenever the composer emits exactly one "ESP Pad" segment, the
running `packetLength` used as the padding base equals the sum of the byte
sizes of the segments emitted by the inner-data helper. -/
theorem padding_base_eq_innerdata_sum (form : IFormState)
    (_h : ((calculatePacket form).filter fun s => s.text == "ESP Pad").length = 1) :
    espPacketLength form = ((setInnerdata form).map fun s => s.bytes).sum :=
  espPacketLength_eq_innerdata_sum form

/-- Witness for C10 at the default configuration. -/
theorem padding_base_eq_innerdata_sum_witness :
    ((calculatePacket defaultFormValues).filter fun s => s.text == "ESP Pad").length = 1 ∧
    espPacketLength defaultFormValues = ((setInnerdata defaultFormValues).map fun s => s.bytes).sum :=
  ⟨by decide, padding_base_eq_innerdata_sum defaultFormValues (by decide)⟩

/-! Helper lemmas for C2: no segment outside the ESP step carries the text
"ESP Pad". -/

lemma setInnerdata_filter_espPad (form : IFormState) :
    (setInnerdata form).filter (fun s => s.text == "ESP Pad") = [] := by
  rcases form with ⟨ps, ⟨ah, ee, ei, tm⟩, ⟨ip, nat⟩, ⟨gre, gk⟩⟩
  cases ip <;> cases tm <;> cases gre <;> cases gk <;>
    simp [setInnerdata, ipProtocolName, ipHeaderSizeOf]

lemma headerSegments_filter_espPad (form : IFormState) :
    (headerSegments form).filter (fun s => s.text == "ESP Pad") = [] := by
  rcases form with ⟨ps, ⟨ah, ee, ei, tm⟩, ⟨ip, nat⟩, ⟨gre, gk⟩⟩
  cases ip <;> cases tm <;> cases gre <;>
    simp [headerSegments, ipProtocolName, ipHeaderSizeOf]

lemma natSegments_filter_espPad (form : IFormState) :
    (natSegments form).filter (fun s => s.text == "ESP Pad") = [] := by
  unfold natSegments
  split <;> simp

lemma ahSegments_filter_espPad (form : IFormState) :
    (ahSegments form).filter (fun s => s.text == "ESP Pad") = [] := by
  unfold ahSegments
  split <;>
    simp [List.filter_append, setInnerdata_filter_espPad,
      apply_ite (List.filter (fun s : PacketDetail => s.text == "ESP Pad"))]

/-- Spec-side list of the expected ESP Pad byte sizes: the ceiling formula
with block size 8 for DES/3DES, 16 for AES, 4 for GCM, NULL and the
GMAC-only branch, over the padding base accumulated in steps 1 to 3 only
(`espPacketLength`; it contains no NAT-T, AH, ESP-header, IV or inner-data
helper bytes). -/
def espPadSpec (form : IFormState) : List Int :=
  if form.transform.espEncr ≠ EspEncryption.None ∨
      form.transform.espInte = EspHmac.GMAC then
    (match form.transform.espEncr with
      | EspEncryption.DES3DES => [getPadSize (espPacketLength form) 8]
      | EspEncryption.AES => [getPadSize (espPacketLength form) 16]
      | EspEncryption.GCM => [getPadSize (espPacketLength form) 4]
      | EspEncryption.NULL => [getPadSize (espPacketLength form) 4]
      | EspEncryption.None => []) ++
    (if form.transform.espInte = EspHmac.GMAC then
      [getPadSize (espPacketLength form) 4]
    else [])
  else []

/-- C2: the byte sizes of the emitted "ESP Pad" segments are exactly those
given by the spec formula `ceil((L + 2) / B) * B - (L + 2)`, with the
per-branch block size B and the padding base L accumulated from steps 1 to 3
only. -/
theorem espPad_bytes_spec (form : IFormState) :
    ((calculatePacket form).filter fun s => s.text == "ESP Pad").map (fun s => s.bytes) =
      espPadSpec form := by
  unfold calculatePacket
  simp only [List.filter_append, headerSegments_filter_espPad,
    natSegments_filter_espPad, ahSegments_filter_espPad, List.nil_append]
  unfold espSegments espPadSpec
  rcases form with ⟨ps, ⟨ah, ee, ei, tm⟩, ⟨ip, nat⟩, ⟨gre, gk⟩⟩
  cases ee <;> cases ei <;>
    simp [List.filter_append, setInnerdata_filter_espPad,
      apply_ite (List.filter (fun s : PacketDetail => s.text == "ESP Pad"))]

/-! Helper lemmas for C7: no segment outside the ESP step carries the text
"ESP ICV". -/

lemma setInnerdata_filter_espIcv (form : IFormState) :
    (setInnerdata form).filter (fun s => s.text == "ESP ICV") = [] := by
  rcases form with ⟨ps, ⟨ah, ee, ei, tm⟩, ⟨ip, nat⟩, ⟨gre, gk⟩⟩
  cases ip <;> cases tm <;> cases gre <;> cases gk <;>
    simp [setInnerdata, ipProtocolName, ipHeaderSizeOf]

lemma headerSegments_filter_espIcv (form : IFormState) :
    (headerSegments form).filter (fun s => s.text == "ESP ICV") = [] := by
  rcases form with ⟨ps, ⟨ah, ee, ei, tm⟩, ⟨ip, nat⟩, ⟨gre, gk⟩⟩
  cases ip <;> cases tm <;> cases gre <;>
    simp [headerSegments, ipProtocolName, ipHeaderSizeOf]

lemma natSegments_filter_espIcv (form : IFormState) :
    (natSegments form).filter (fun s => s.text == "ESP ICV") = [] := by
  unfold natSegments
  split <;> simp

lemma ahSegments_filter_espIcv (form : IFormState) :
    (ahSegments form).filter (fun s => s.text == "ESP ICV") = [] := by
  unfold ahSegments
  split <;>
    simp [List.filter_append, setInnerdata_filter_espIcv,
      apply_ite (List.filter (fun s : PacketDetail => s.text == "ESP ICV"))]

/-- C7: when the ESP step runs, a 16-byte "ESP ICV" under "ESP Trailer" is
emitted exactly when espEncryption is GCM or espIntegrity is GMAC, and an
additional "ESP ICV" is emitted according to espIntegrity alone: 12 bytes
for MD5-HMAC or SHA-HMAC, 16 for SHA-256, 24 for SHA-384, 32 for SHA-512,
none for None or GMAC. -/
theorem espIcv_spec (form : IFormState)
    (h : form.transform.espEncr ≠ EspEncryption.None ∨
      form.transform.espInte = EspHmac.GMAC) :
    ((calculatePacket form).filter fun s => s.text == "ESP ICV").map
        (fun s => (s.bytes, s.group)) =
      (if form.transform.espEncr = EspEncryption.GCM ∨
          form.transform.espInte = EspHmac.GMAC then
        [((16 : Int), some "ESP Trailer")]
      else []) ++
      (match form.transform.espInte with
        | EspHmac.MD5HMAC => [((12 : Int), some "ESP Trailer")]
        | EspHmac.SHAHMAC => [((12 : Int), some "ESP Trailer")]
        | EspHmac.SHA256 => [((16 : Int), some "ESP Trailer")]
        | EspHmac.SHA384 => [((24 : Int), some "ESP Trailer")]
        | EspHmac.SHA512 => [((32 : Int), some "ESP Trailer")]
        | EspHmac.None => []
        | EspHmac.GMAC => []) := by
  unfold calculatePacket
  simp only [List.filter_append, headerSegments_filter_espIcv,
    natSegments_filter_espIcv, ahSegments_filter_espIcv, List.nil_append]
  unfold espSegments
  rcases form with ⟨ps, ⟨ah, ee, ei, tm⟩, ⟨ip, nat⟩, ⟨gre, gk⟩⟩
  cases ee <;> cases ei <;>
    simp_all [List.filter_append, setInnerdata_filter_espIcv,
      apply_ite (List.filter (fun s : PacketDetail => s.text == "ESP ICV"))]

/-- Witness for C7 at the default configuration (AES with SHA-HMAC: one
12-byte HMAC ICV, no AEAD ICV). -/
theorem espIcv_spec_witness :
    (defaultFormValues.transform.espEncr ≠ EspEncryption.None ∨
      defaultFormValues.transform.espInte = EspHmac.GMAC) ∧
    ((calculatePacket defaultFormValues).filter fun s => s.text == "ESP ICV").map
        (fun s => (s.bytes, s.group)) = [((12 : Int), some "ESP Trailer")] := by
  refine ⟨by decide, ?_⟩
  have := espIcv_spec defaultFormValues (by decide)
  simpa using this

/-! Helper lemmas for C4: counting the "Original <ver> Payload" segments
emitted by each composer step (the inner-data helper emits exactly one per
invocation, and nothing else carries that label). -/

lemma filter_ite_push (p : PacketDetail → Bool) (c : Prop) [Decidable c]
    (l1 l2 : List PacketDetail) :
    List.filter p (if c then l1 else l2) =
      if c then List.filter p l1 else List.filter p l2 :=
  apply_ite (List.filter p) c l1 l2

lemma length_ite_push (c : Prop) [Decidable c] (l1 l2 : List PacketDetail) :
    (if c then l1 else l2).length = if c then l1.length else l2.length :=
  apply_ite List.length c l1 l2

/-- Label of the original payload segment for the configured IP version. -/
def originalPayloadText (form : IFormState) : String :=
  "Original " ++ ipProtocolName form.transport.ipProtocol ++ " Payload"

lemma setInnerdata_payload_count_ipv4 (form : IFormState)
    (hip : form.transport.ipProtocol = IPVersion.IPv4) :
    ((setInnerdata form).filter fun s => s.text == "Original IPv4 Payload").length = 1 := by
  rcases form with ⟨ps, ⟨ah, ee, ei, tm⟩, ⟨ip, nat⟩, ⟨gre, gk⟩⟩
  cases ip <;> simp_all <;> cases tm <;> cases gre <;> cases gk <;>
    simp [setInnerdata, ipProtocolName, ipHeaderSizeOf]

lemma setInnerdata_payload_count_ipv6 (form : IFormState)
    (hip : form.transport.ipProtocol = IPVersion.IPv6) :
    ((setInnerdata form).filter fun s => s.text == "Original IPv6 Payload").length = 1 := by
  rcases form with ⟨ps, ⟨ah, ee, ei, tm⟩, ⟨ip, nat⟩, ⟨gre, gk⟩⟩
  cases ip <;> simp_all <;> cases tm <;> cases gre <;> cases gk <;>
    simp [setInnerdata, ipProtocolName, ipHeaderSizeOf]

lemma headerSegments_filter_payload (form : IFormState) :
    (headerSegments form).filter (fun s => s.text == originalPayloadText form) = [] := by
  rcases form with ⟨ps, ⟨ah, ee, ei, tm⟩, ⟨ip, nat⟩, ⟨gre, gk⟩⟩
  cases ip <;> cases tm <;> cases gre <;>
    simp [headerSegments, originalPayloadText, ipProtocolName, ipHeaderSizeOf]

lemma natSegments_filter_payload (form : IFormState) :
    (natSegments form).filter (fun s => s.text == originalPayloadText form) = [] := by
  rcases form with ⟨ps, ⟨ah, ee, ei, tm⟩, ⟨ip, nat⟩, ⟨gre, gk⟩⟩
  cases ip <;> unfold natSegments <;> split <;>
    simp [originalPayloadText, ipProtocolName]

lemma ahSegments_payload_count (form : IFormState) :
    ((ahSegments form).filter fun s => s.text == originalPayloadText form).length =
      if form.transform.ahInte ≠ AhHmac.None then
        (if form.transform.espEncr = EspEncryption.None ∧
            form.transform.espInte = EspHmac.None then 1 else 0)
      else 0 := by
  rcases form with ⟨ps, ⟨ah, ee, ei, tm⟩, ⟨ip, nat⟩, ⟨gre, gk⟩⟩
  cases ip <;> cases ah <;>
    simp [ahSegments, List.filter_append, originalPayloadText, ipProtocolName,
      filter_ite_push, length_ite_push, setInnerdata_payload_count_ipv4,
      setInnerdata_payload_count_ipv6]

lemma espSegments_payload_count (form : IFormState) :
    ((espSegments form).filter fun s => s.text == originalPayloadText form).length =
      if form.transform.espEncr ≠ EspEncryption.None ∨
          form.transform.espInte = EspHmac.GMAC then
        (if form.transform.espEncr = EspEncryption.None then 0 else 1) +
        (if form.transform.espInte = EspHmac.GMAC then 1 else 0)
      else 0 := by
  rcases form with ⟨ps, ⟨ah, ee, ei, tm⟩, ⟨ip, nat⟩, ⟨gre, gk⟩⟩
  cases ip <;> cases ee <;> cases ei <;>
    simp [espSegments, List.filter_append, originalPayloadText, ipProtocolName,
      setInnerdata_payload_count_ipv4, setInnerdata_payload_count_ipv6]

/-- Configuration refuting C4 as stated: ESP integrity SHA-HMAC is
configured (so at least one protection is configured) but ESP encryption is
None, so neither the AH step nor the ESP step invokes the inner-data
helper. -/
def c4Form : IFormState :=
  ⟨100,
   ⟨AhHmac.None, EspEncryption.None, EspHmac.SHAHMAC, TunnelMode.Tunnel⟩,
   ⟨IPVersion.IPv4, false⟩,
   ⟨false, false⟩⟩

/-- C4 counterexample: for `c4Form` at least one protection is configured,
yet the composer emits no "Original IPv4 Payload" segment at all, i.e. the
inner-data helper is never invoked. -/
theorem innerdata_invocation_cex :
    ¬(c4Form.transform.espEncr = EspEncryption.None ∧
      c4Form.transform.espInte = EspHmac.None ∧
      c4Form.transform.ahInte = AhHmac.None) ∧
    ((calculatePacket c4Form).filter fun s =>
      s.text == originalPayloadText c4Form).length = 0 := by
  refine ⟨by decide, ?_⟩
  decide

/-- C4 (amended): for every configuration with at least one protection
configured, excluding the configurations where espEncryption is None while
espIntegrity is neither None nor GMAC (there the composer emits no payload
segment at all), the composer emits at least one original-payload segment,
and never one from both the AH step and the ESP step. -/
theorem innerdata_invocation (form : IFormState)
    (hprotect : ¬(form.transform.espEncr = EspEncryption.None ∧
      form.transform.espInte = EspHmac.None ∧
      form.transform.ahInte = AhHmac.None))
    (hesp : form.transform.espEncr ≠ EspEncryption.None ∨
      form.transform.espInte = EspHmac.None ∨
      form.transform.espInte = EspHmac.GMAC) :
    1 ≤ ((calculatePacket form).filter fun s =>
        s.text == originalPayloadText form).length ∧
    ¬(1 ≤ ((ahSegments form).filter fun s =>
          s.text == originalPayloadText form).length ∧
      1 ≤ ((espSegments form).filter fun s =>
          s.text == originalPayloadText form).length) := by
  have hcalc : ((calculatePacket form).filter fun s =>
      s.text == originalPayloadText form).length =
      ((ahSegments form).filter fun s =>
        s.text == originalPayloadText form).length +
      ((espSegments form).filter fun s =>
        s.text == originalPayloadText form).length := by
    unfold calculatePacket
    simp [List.filter_append, headerSegments_filter_payload,
      natSegments_filter_payload]
  rw [hcalc, ahSegments_payload_count, espSegments_payload_count]
  rcases form with ⟨ps, ⟨ah, ee, ei, tm⟩, ⟨ip, nat⟩, ⟨gre, gk⟩⟩
  cases ah <;> cases ee <;> cases ei <;> simp_all

/-- Witness for the amended C4 at the default configuration. -/
theorem innerdata_invocation_witness :
    (¬(defaultFormValues.transform.espEncr = EspEncryption.None ∧
      defaultFormValues.transform.espInte = EspHmac.None ∧
      defaultFormValues.transform.ahInte = AhHmac.None)) ∧
    (defaultFormValues.transform.espEncr ≠ EspEncryption.None ∨
      defaultFormValues.transform.espInte = EspHmac.None ∨
      defaultFormValues.transform.espInte = EspHmac.GMAC) ∧
    (1 ≤ ((calculatePacket defaultFormValues).filter fun s =>
        s.text == originalPayloadText defaultFormValues).length ∧
    ¬(1 ≤ ((ahSegments defaultFormValues).filter fun s =>
          s.text == originalPayloadText defaultFormValues).length ∧
      1 ≤ ((espSegments defaultFormValues).filter fun s =>
          s.text == originalPayloadText defaultFormValues).length)) :=
  ⟨by decide, by decide, innerdata_invocation defaultFormValues (by decide) (by decide)⟩

/-! Helper lemmas for C6: every segment byte size is non-negative once the
validator has accepted the configuration (`getPadSize` is non-negative for
any positive block size, and the payload size needs the minimum-packet-size
bound). -/

lemma getPadSize_nonneg (L B : Int) (hB : 0 < B) : 0 ≤ getPadSize L B := by
  unfold getPadSize
  have hBQ : (0 : ℚ) < ((B : Int) : ℚ) := by exact_mod_cast hB
  have h1 : ((L + 2 : Int) : ℚ) / ((B : Int) : ℚ) ≤
      (⌈((L + 2 : Int) : ℚ) / ((B : Int) : ℚ)⌉ : ℚ) := Int.le_ceil _
  have h2 : ((L + 2 : Int) : ℚ) ≤
      (⌈((L + 2 : Int) : ℚ) / ((B : Int) : ℚ)⌉ : ℚ) * ((B : Int) : ℚ) := by
    have hmul := mul_le_mul_of_nonneg_right h1 (le_of_lt hBQ)
    rwa [div_mul_cancel₀ _ (ne_of_gt hBQ)] at hmul
  have h3 : (L + 2 : Int) ≤ ⌈((L + 2 : Int) : ℚ) / ((B : Int) : ℚ)⌉ * B := by
    exact_mod_cast h2
  omega

lemma headerSegments_bytes_nonneg (form : IFormState) :
    ∀ s ∈ headerSegments form, 0 ≤ s.bytes := by
  rcases form with ⟨ps, ⟨ah, ee, ei, tm⟩, ⟨ip, nat⟩, ⟨gre, gk⟩⟩
  cases ip <;> cases tm <;> cases gre <;>
    simp [headerSegments, ipHeaderSizeOf, IPV4_HDR_SIZE, IPV6_HDR_SIZE, ipProtocolName]

lemma natSegments_bytes_nonneg (form : IFormState) :
    ∀ s ∈ natSegments form, 0 ≤ s.bytes := by
  unfold natSegments
  split <;> simp

lemma setInnerdata_bytes_nonneg (form : IFormState)
    (hps : ipHeaderSizeOf form + 8 ≤ form.packetSize) :
    ∀ s ∈ setInnerdata form, 0 ≤ s.bytes := by
  rcases form with ⟨ps, ⟨ah, ee, ei, tm⟩, ⟨ip, nat⟩, ⟨gre, gk⟩⟩
  cases ip <;> cases tm <;> cases gre <;> cases gk <;>
    simp_all [setInnerdata, ipHeaderSizeOf, IPV4_HDR_SIZE, IPV6_HDR_SIZE, ipProtocolName] <;>
    omega

lemma ahSegments_bytes_nonneg (form : IFormState)
    (hps : ipHeaderSizeOf form + 8 ≤ form.packetSize) :
    ∀ s ∈ ahSegments form, 0 ≤ s.bytes := by
  have hinner := setInnerdata_bytes_nonneg form hps
  unfold ahSegments
  split
  · refine List.forall_mem_append.mpr ⟨List.forall_mem_append.mpr
      ⟨List.forall_mem_append.mpr ⟨?_, ?_⟩, ?_⟩, ?_⟩
    · simp
    · split <;> simp
    · split <;> simp
    · split
      · exact hinner
      · simp
  · simp

lemma espSegments_bytes_nonneg (form : IFormState)
    (hps : ipHeaderSizeOf form + 8 ≤ form.packetSize) :
    ∀ s ∈ espSegments form, 0 ≤ s.bytes := by
  have hinner := setInnerdata_bytes_nonneg form hps
  have hpad4 := getPadSize_nonneg (espPacketLength form) 4 (by norm_num)
  have hpad8 := getPadSize_nonneg (espPacketLength form) 8 (by norm_num)
  have hpad16 := getPadSize_nonneg (espPacketLength form) 16 (by norm_num)
  unfold espSegments
  split
  · refine List.forall_mem_append.mpr ⟨List.forall_mem_append.mpr
      ⟨List.forall_mem_append.mpr ⟨List.forall_mem_append.mpr
      ⟨List.forall_mem_append.mpr ⟨?_, ?_⟩, ?_⟩, ?_⟩, ?_⟩, ?_⟩
    · simp
    · split <;>
        simp_all [List.forall_mem_cons, List.forall_mem_append] <;>
        rintro a (ha | rfl) <;>
        first
          | exact hinner a ha
          | simp_all
    · split
      · simp_all [List.forall_mem_cons, List.forall_mem_append]
        rintro a (ha | rfl)
        · exact hinner a ha
        · simp_all
      · simp
    · simp
    · split <;> simp
    · split <;> simp
  · simp

/-- C6: for every configuration accepted by the validator, every segment
emitted by the composer has a non-negative byte size. -/
theorem calculatePacket_bytes_nonneg (form : IFormState)
    (h : validateForm form = "") :
    ((calculatePacket form).all fun s => decide (0 ≤ s.bytes)) = true := by
  have hps : ipHeaderSizeOf form + 8 ≤ form.packetSize := by
    have hm := (validateForm_empty_iff form).mp h
    have h1 := hm.1
    unfold ruleSizeFails at h1
    omega
  rw [List.all_eq_true]
  intro s hs
  rw [decide_eq_true_eq]
  unfold calculatePacket at hs
  rcases List.mem_append.mp hs with hs | h4
  · rcases List.mem_append.mp hs with hs | h3
    · rcases List.mem_append.mp hs with h1 | h2
      · exact headerSegments_bytes_nonneg form s h1
      · exact natSegments_bytes_nonneg form s h2
    · exact ahSegments_bytes_nonneg form hps s h3
  · exact espSegments_bytes_nonneg form hps s h4

/-- Witness for C6 at the default configuration. -/
theorem calculatePacket_bytes_nonneg_witness :
    validateForm defaultFormValues = "" ∧
    ((calculatePacket defaultFormValues).all fun s => decide (0 ≤ s.bytes)) = true :=
  ⟨by decide, calculatePacket_bytes_nonneg defaultFormValues (by decide)⟩



/-! Embedding support for C8: replacing only the `greKey` flag, and the
per-position relation between the two resulting segment sequences. -/

/-- The configuration with `greKey` replaced. -/
def withGreKey (form : IFormState) (key : Bool) : IFormState :=
  ⟨form.packetSize, form.transform, form.transport,
   ⟨form.tunnelSetting.gre, key⟩⟩

/-- Relation between corresponding segments of the GRE-with-key and
GRE-without-key runs. -/
def greKeyRel (s1 s2 : PacketDetail) : Prop :=
  s1 = s2 ∨
  (s1 = ⟨"GRE Header + Tunnel Key", 8, none⟩ ∧
    s2 = ⟨"GRE Header", 4, none⟩) ∨
  (s1.text = "ESP Pad" ∧ s2.text = "ESP Pad" ∧ s1.group = s2.group)

lemma forall₂_greKeyRel_same (l : List PacketDetail) :
    List.Forall₂ greKeyRel l l :=
  List.forall₂_same.mpr fun _ _ => Or.inl rfl

lemma setInnerdata_greKeyRel (form : IFormState)
    (hgre : form.tunnelSetting.gre = true) :
    List.Forall₂ greKeyRel (setInnerdata (withGreKey form true))
      (setInnerdata (withGreKey form false)) := by
  unfold setInnerdata withGreKey
  simp only [hgre, if_true, if_false, Bool.false_eq_true, reduceIte]
  refine List.rel_append (List.rel_append ?_ ?_) ?_
  · refine List.rel_append ?_ ?_
    · exact forall₂_greKeyRel_same _
    · exact List.Forall₂.cons (Or.inr (Or.inl ⟨rfl, rfl⟩)) List.Forall₂.nil
  · exact forall₂_greKeyRel_same _
  · exact forall₂_greKeyRel_same _

lemma ahSegments_greKeyRel (form : IFormState)
    (hgre : form.tunnelSetting.gre = true) :
    List.Forall₂ greKeyRel (ahSegments (withGreKey form true))
      (ahSegments (withGreKey form false)) := by
  have hinner := setInnerdata_greKeyRel form hgre
  unfold ahSegments
  simp only [withGreKey]
  by_cases hah : form.transform.ahInte ≠ AhHmac.None
  · rw [if_pos hah, if_pos hah]
    refine List.rel_append (List.rel_append (List.rel_append ?_ ?_) ?_) ?_
    · exact forall₂_greKeyRel_same _
    · exact forall₂_greKeyRel_same _
    · exact forall₂_greKeyRel_same _
    · by_cases hesp : form.transform.espEncr = EspEncryption.None ∧
          form.transform.espInte = EspHmac.None
      · rw [if_pos hesp, if_pos hesp]
        exact hinner
      · rw [if_neg hesp, if_neg hesp]
        exact List.Forall₂.nil
  · rw [if_neg hah, if_neg hah]
    exact List.Forall₂.nil

lemma espSegments_greKeyRel (form : IFormState)
    (hgre : form.tunnelSetting.gre = true) :
    List.Forall₂ greKeyRel (espSegments (withGreKey form true))
      (espSegments (withGreKey form false)) := by
  have hinner := setInnerdata_greKeyRel form hgre
  have hpadrel : ∀ b1 b2 : Int,
      greKeyRel ⟨"ESP Pad", b1, some "ESP Trailer"⟩ ⟨"ESP Pad", b2, some "ESP Trailer"⟩ :=
    fun b1 b2 => Or.inr (Or.inr ⟨rfl, rfl, rfl⟩)
  unfold espSegments
  simp only [withGreKey]
  by_cases htrig : form.transform.espEncr ≠ EspEncryption.None ∨
      form.transform.espInte = EspHmac.GMAC
  · rw [if_pos htrig, if_pos htrig]
    refine List.rel_append (List.rel_append (List.rel_append (List.rel_append
      (List.rel_append ?_ ?_) ?_) ?_) ?_) ?_
    · exact forall₂_greKeyRel_same _
    · rcases hee : form.transform.espEncr <;>
        simp only [hee] <;>
        first
          | exact List.Forall₂.nil
          | exact List.rel_append hinner
              (List.Forall₂.cons (hpadrel _ _) List.Forall₂.nil)
          | exact List.Forall₂.cons (Or.inl rfl)
              (List.rel_append hinner
                (List.Forall₂.cons (hpadrel _ _) List.Forall₂.nil))
    · by_cases hg : form.transform.espInte = EspHmac.GMAC
      · rw [if_pos hg, if_pos hg]
        exact List.Forall₂.cons (Or.inl rfl)
          (List.rel_append hinner
            (List.Forall₂.cons (hpadrel _ _) List.Forall₂.nil))
      · rw [if_neg hg, if_neg hg]
        exact List.Forall₂.nil
    · exact forall₂_greKeyRel_same _
    · exact forall₂_greKeyRel_same _
    · exact forall₂_greKeyRel_same _
  · rw [if_neg htrig, if_neg htrig]
    exact List.Forall₂.nil

/-- Configuration (GRE enabled) used for the C8 counterexample and witness. -/
def c8Form : IFormState :=
  ⟨100,
   ⟨AhHmac.None, EspEncryption.AES, EspHmac.SHAHMAC, TunnelMode.Tunnel⟩,
   ⟨IPVersion.IPv4, false⟩,
   ⟨true, false⟩⟩

/-- C8 counterexample: the two runs differ in a segment LABEL as well
("GRE Header + Tunnel Key" versus "GRE Header"), so they do not differ only
in byte sizes. -/
theorem gre_key_difference_cex :
    ((calculatePacket (withGreKey c8Form true)).map fun s => s.text) ≠
      ((calculatePacket (withGreKey c8Form false)).map fun s => s.text) := by
  decide

lemma headerSegments_withGreKey (form : IFormState) (b : Bool) :
    headerSegments (withGreKey form b) = headerSegments form := rfl

lemma natSegments_withGreKey (form : IFormState) (b : Bool) :
    natSegments (withGreKey form b) = natSegments form := rfl

/-- C8 (amended): two configurations identical except for greKeyEnabled
(GRE enabled in both) compose to sequences of equal length that agree
segment by segment, except that the GRE header segment is the 8-byte
"GRE Header + Tunnel Key" with the key versus the 4-byte "GRE Header"
without, and the "ESP Pad" segments may differ in byte size only (their
padding base is exactly 4 bytes larger with the key). -/
theorem gre_key_frame_effect (form : IFormState)
    (hgre : form.tunnelSetting.gre = true) :
    espPacketLength (withGreKey form true) =
      espPacketLength (withGreKey form false) + 4 ∧
    List.Forall₂ greKeyRel (calculatePacket (withGreKey form true))
      (calculatePacket (withGreKey form false)) := by
  constructor
  · rcases form with ⟨ps, ⟨ah, ee, ei, tm⟩, ⟨ip, nat⟩, ⟨gre, gk⟩⟩
    simp only at hgre
    subst hgre
    cases tm <;> cases ip <;>
      simp [espPacketLength, withGreKey, ipHeaderSizeOf] <;> ring
  · unfold calculatePacket
    rw [headerSegments_withGreKey, headerSegments_withGreKey,
      natSegments_withGreKey, natSegments_withGreKey]
    refine List.rel_append (List.rel_append (List.rel_append ?_ ?_) ?_) ?_
    · exact forall₂_greKeyRel_same _
    · exact forall₂_greKeyRel_same _
    · exact ahSegments_greKeyRel form hgre
    · exact espSegments_greKeyRel form hgre

/-- Witness for the amended C8 at `c8Form`. -/
theorem gre_key_frame_effect_witness :
    c8Form.tunnelSetting.gre = true ∧
    (espPacketLength (withGreKey c8Form true) =
      espPacketLength (withGreKey c8Form false) + 4 ∧
    List.Forall₂ greKeyRel (calculatePacket (withGreKey c8Form true))
      (calculatePacket (withGreKey c8Form false))) :=
  ⟨rfl, gre_key_frame_effect c8Form rfl⟩



end IpsecOverhead
